import Mathlib

/-!
Verification of the `msfc-ccd` package: a shallow embedding of its data
model (sensor frames, tap frames, sensor geometry) and of its operations
(tap split/recombination, calibration transfer functions, dark current,
active-region extraction), with theorems checking the natural-language
specification against the code.

Conventions of the embedding:
* machine floats become real numbers (`ℝ`); a Python float division whose
  denominator may be zero is modelled by `fdiv`, which returns `none`
  exactly when Python would raise `ZeroDivisionError`;
* `numpy.log` is total (it returns nan or negative infinity rather than
  raising), so it is modelled by the total function `Real.log`;
* the Kelvin → Celsius conversion performed by
  `result.to(u.deg_C, equivalencies=u.temperature())` subtracts 273.15;
* physical units (`u.s`, `u.V`, `u.K`, ...) are dropped: a quantity is
  represented by its numeric value in the unit the code attaches to it.
-/

noncomputable section

/-- Python float division: `a / b` raises `ZeroDivisionError` when `b == 0`,
so the model returns `none` there and `some (a / b)` otherwise. -/
def fdiv (a b : ℝ) : Option ℝ := if b = 0 then none else some (a / b)

namespace AbstractCamera

/-- `AbstractCamera.calibrate_timedelta_exposure` (src/msfc_ccd/_cameras.py):
`value * 0.000000025 * u.s`. -/
def calibrate_timedelta_exposure (value : ℝ) : ℝ :=
  value * 0.000000025

/-- `AbstractCamera.calibrate_voltage_fpga` (src/msfc_ccd/_cameras.py):
`value * 3 / 4096 * u.V`. -/
def calibrate_voltage_fpga (value : ℝ) : ℝ :=
  value * 3 / 4096

/-- `AbstractCamera.calibrate_temperature_fpga` (src/msfc_ccd/_cameras.py):
`value * 503.975 / 4096 * u.K`, converted to Celsius. -/
def calibrate_temperature_fpga (value : ℝ) : ℝ :=
  value * 503.975 / 4096 - 273.15

/-- `AbstractCamera.calibrate_temperature_adc_1` (src/msfc_ccd/_cameras.py):
`r = (9.814453125 * value) / (1 - (value / 4096.0))`;
`result = 3455.0 / np.log(r / 0.0927557) * u.K`, converted to Celsius. -/
def calibrate_temperature_adc_1 (value : ℝ) : Option ℝ :=
  (fdiv (9.814453125 * value) (1 - value / 4096.0)).bind fun r =>
    (fdiv 3455.0 (Real.log (r / 0.0927557))).map fun tK =>
      tK - 273.15

/-- `AbstractCamera.calibrate_temperature_adc_234` (src/msfc_ccd/_cameras.py):
`r = (9.814453125 * value) / (1 - (value / 4096.0))`;
`result = 1 / (a + (b * np.log(r)) + (c * np.log(r)) ** 3) * u.K` with
`a = 0.0011275`, `b = 0.00023441`, `c = 0.000000086482`, converted to
Celsius.  Note that the cube in the code applies to the product
`c * np.log(r)`, not to `np.log(r)` alone. -/
def calibrate_temperature_adc_234 (value : ℝ) : Option ℝ :=
  (fdiv (9.814453125 * value) (1 - value / 4096.0)).bind fun r =>
    let a : ℝ := 0.0011275
    let b : ℝ := 0.00023441
    let c : ℝ := 0.000000086482
    (fdiv 1 (a + (b * Real.log r) + (c * Real.log r) ^ 3)).map fun tK =>
      tK - 273.15

end AbstractCamera

namespace SensorDataCal

/-- `SensorData._calibrate_timedelta` (src/msfc_ccd/_images/_sensor_images.py):
`value * 0.000000025 * u.s`. -/
def _calibrate_timedelta (value : ℝ) : ℝ :=
  value * 0.000000025

/-- `SensorData._calibrate_voltage_fpga`
(src/msfc_ccd/_images/_sensor_images.py): `value * 3 / 4096 * u.V`. -/
def _calibrate_voltage_fpga (value : ℝ) : ℝ :=
  value * 3 / 4096

/-- `SensorData._calibrate_temperature_fpga`
(src/msfc_ccd/_images/_sensor_images.py): `value * 503.975 / 4096 * u.K`,
converted to Celsius. -/
def _calibrate_temperature_fpga (value : ℝ) : ℝ :=
  value * 503.975 / 4096 - 273.15

/-- `SensorData._calibrate_temperature_adc_1`
(src/msfc_ccd/_images/_sensor_images.py): identical text to
`AbstractCamera.calibrate_temperature_adc_1`. -/
def _calibrate_temperature_adc_1 (value : ℝ) : Option ℝ :=
  (fdiv (9.814453125 * value) (1 - value / 4096.0)).bind fun r =>
    (fdiv 3455.0 (Real.log (r / 0.0927557))).map fun tK =>
      tK - 273.15

/-- `SensorData._calibrate_temperature_adc_234`
(src/msfc_ccd/_images/_sensor_images.py): identical text to
`AbstractCamera.calibrate_temperature_adc_234`. -/
def _calibrate_temperature_adc_234 (value : ℝ) : Option ℝ :=
  (fdiv (9.814453125 * value) (1 - value / 4096.0)).bind fun r =>
    let a : ℝ := 0.0011275
    let b : ℝ := 0.00023441
    let c : ℝ := 0.000000086482
    (fdiv 1 (a + (b * Real.log r) + (c * Real.log r) ^ 3)).map fun tK =>
      tK - 273.15

end SensorDataCal

/-- The formula asserted by the specification for the channel-2/3/4 ADC
temperature: `T_K = 1 / (a + b·ln(r) + c·ln(r)³)` with the cube applying to
`ln(r)` and `c` a *linear* coefficient, converted to Celsius. -/
def adc_temperature_234_specFormula (value : ℝ) : ℝ :=
  let r : ℝ := (9.814453125 * value) / (1 - value / 4096.0)
  let a : ℝ := 0.0011275
  let b : ℝ := 0.00023441
  let c : ℝ := 0.000000086482
  1 / (a + b * Real.log r + c * (Real.log r) ^ 3) - 273.15

/-- The `readout_mode` field of `TeledyneCCD230` (src/msfc_ccd/_sensors.py):
the string literal `"full-frame"` or `"transfer"`. -/
inductive ReadoutMode where
  | fullFrame
  | transfer
  deriving DecidableEq

/-- `TeledyneCCD230` (src/msfc_ccd/_sensors.py), keeping the fields the
claims exercise.  `num_pixel` defaults to `(2048, 2064)`: the Python field
defaults to `None` and `__post_init__` replaces `None` by
`na.Cartesian2dVectorArray(2048, 2064)`.  The components are rationals
because `num_pixel_active` divides the vertical component by 2 with true
division. -/
structure TeledyneCCD230 where
  num_pixel : ℚ × ℚ := (2048, 2064)
  num_blank : ℕ := 50
  num_overscan : ℕ := 2
  readout_mode : ReadoutMode := ReadoutMode.transfer
  temperature : ℝ := 248

/-- `AbstractSensor.num_tap_x` (src/msfc_ccd/_sensors.py): a class variable
equal to 2, read through the instance as `self.sensor.num_tap_x`. -/
def TeledyneCCD230.num_tap_x (_ : TeledyneCCD230) : ℕ := 2

/-- `AbstractSensor.num_tap_y` (src/msfc_ccd/_sensors.py): a class variable
equal to 2, read through the instance as `self.sensor.num_tap_y`. -/
def TeledyneCCD230.num_tap_y (_ : TeledyneCCD230) : ℕ := 2

/-- `TeledyneCCD230.num_pixel_active` (src/msfc_ccd/_sensors.py):
```
result = self.num_pixel
if self.readout_mode == "transfer":
    return result.replace(y=result.y / 2)
```
When `readout_mode` is not `"transfer"` the method falls off the end and
implicitly returns `None`, modelled as `none`. -/
def TeledyneCCD230.num_pixel_active (s : TeledyneCCD230) : Option (ℚ × ℚ) :=
  let result := s.num_pixel
  if s.readout_mode = ReadoutMode.transfer then
    some (result.1, result.2 / 2)
  else
    none

/-- `TeledyneCCD230._frac_Qd_Qdo` (src/msfc_ccd/_sensors.py):
`122 * T * np.square(T) * np.exp(-6400 * u.K / T) / u.K**3`, with the
temperature expressed in kelvin. -/
def TeledyneCCD230._frac_Qd_Qdo (T : ℝ) : ℝ :=
  122 * T * (T * T) * Real.exp (-6400 / T)

/-- `TeledyneCCD230.dark_current` (src/msfc_ccd/_sensors.py): the
`temperature` argument defaults to `None`, in which case
`self.temperature` is used; then
`Q_248K = 0.2 * u.electron / u.s`, `f = self._frac_Qd_Qdo(248 * u.K)`,
`Q_do = Q_248K / f`, returning `Q_do * self._frac_Qd_Qdo(temperature)`
in electrons per second. -/
def TeledyneCCD230.dark_current (s : TeledyneCCD230) (temperature : Option ℝ) : ℝ :=
  let temperature := temperature.getD s.temperature
  let Q_248K : ℝ := 0.2
  let f := TeledyneCCD230._frac_Qd_Qdo 248
  let Q_do := Q_248K / f
  Q_do * TeledyneCCD230._frac_Qd_Qdo temperature

/-- The dark-current shape function as written in the specification:
`f(T) = 122·T³·exp(−6400K/T) / K³`. -/
def darkCurrentShapeSpec (T : ℝ) : ℝ :=
  122 * T ^ 3 * Real.exp (-6400 / T)

end

/-!
The image data model.  A named array with two spatial axes becomes a
function from the two indices, together with the extents of the axes
(which in `named_arrays` live in `data.shape`); the tap-split tensor gains
two further tap indices.  The per-pixel coordinate arrays built by
`SensorData.from_fits` and by the test fixtures are one-dimensional along
each spatial axis, which is what `taps`/`from_taps` slice, so `pixel.x` is
a function of the x index alone (and `pixel.y` of the y index alone); in a
tap frame each gains the corresponding tap index.  Metadata values are
opaque (`μ`), as the transforms only copy them.
-/

/-- `ImageHeader` (src/msfc_ccd/_images/_vectors.py), with the
`Cartesian2dVectorArray` field `pixel` flattened into its `x` and `y`
components (of carrier types `πx`, `πy`) and the metadata fields opaque. -/
structure ImageHeader (πx πy μ : Type) where
  pixel_x : πx
  pixel_y : πy
  time : μ
  timedelta : μ
  timedelta_requested : μ
  serial_number : μ
  run_mode : μ
  status : μ
  voltage_fpga_vccint : μ
  voltage_fpga_vccaux : μ
  voltage_fpga_vccbram : μ
  temperature_fpga : μ
  temperature_adc_1 : μ
  temperature_adc_2 : μ
  temperature_adc_3 : μ
  temperature_adc_4 : μ

/-- `dataclasses.replace(inputs, pixel=na.Cartesian2dVectorArray(x, y))`:
a copy of the header with only the pixel-coordinate fields replaced
(possibly changing their carrier types) and every metadata field kept. -/
def ImageHeader.withPixel {πx πy πx' πy' μ : Type}
    (h : ImageHeader πx πy μ) (x : πx') (y : πy') : ImageHeader πx' πy' μ where
  pixel_x := x
  pixel_y := y
  time := h.time
  timedelta := h.timedelta
  timedelta_requested := h.timedelta_requested
  serial_number := h.serial_number
  run_mode := h.run_mode
  status := h.status
  voltage_fpga_vccint := h.voltage_fpga_vccint
  voltage_fpga_vccaux := h.voltage_fpga_vccaux
  voltage_fpga_vccbram := h.voltage_fpga_vccbram
  temperature_fpga := h.temperature_fpga
  temperature_adc_1 := h.temperature_adc_1
  temperature_adc_2 := h.temperature_adc_2
  temperature_adc_3 := h.temperature_adc_3
  temperature_adc_4 := h.temperature_adc_4

/-- `SensorData` (src/msfc_ccd/_images/_sensor_images.py): a whole-sensor
frame.  `outputs i j` is the pixel value at x index `i`, y index `j`;
`num_x`/`num_y` are the spatial extents `data.shape[axis_x]`,
`data.shape[axis_y]` (stored explicitly since the embedding uses total
functions). -/
structure SensorData (α μ : Type) where
  inputs : ImageHeader (ℕ → ℕ) (ℕ → ℕ) μ
  outputs : ℕ → ℕ → α
  num_x : ℕ
  num_y : ℕ
  sensor : TeledyneCCD230

/-- `TapData` as constructed by `AbstractSensorData.taps`
(src/msfc_ccd/_images/_sensor_images.py): the tap-decomposed frame.
`outputs ti tj i j` is the pixel value of tap `(ti, tj)` at per-tap
spatial indices `(i, j)`; `num_x`/`num_y` are the per-tap spatial extents
and `num_tap_x`/`num_tap_y` the extents of the two tap axes. -/
structure TapData (α μ : Type) where
  inputs : ImageHeader (ℕ → ℕ → ℕ) (ℕ → ℕ → ℕ) μ
  outputs : ℕ → ℕ → ℕ → ℕ → α
  num_x : ℕ
  num_y : ℕ
  num_tap_x : ℕ
  num_tap_y : ℕ
  sensor : TeledyneCCD230

/-- `na.stack([a, b], axis=t)`: a new axis of extent 2 whose index 0 selects
`a` and whose index 1 selects `b`. -/
def stack2 {β : Type} (a b : β) : ℕ → β :=
  fun t => if t = 0 then a else b

/-- `AbstractSensorData.taps` (src/msfc_ccd/_images/_sensor_images.py).
The slices become index maps: `[:num_x_new]` is the identity (valid below
`num_x_new`) and `[:num_x_new - 1:-1]` sends `i` to `num_x - 1 - i`.  The
quadrants are `outputs_00 = outputs[slice_left_x][slice_left_y]`,
`outputs_01 = outputs[slice_left_x][slice_right_y]`,
`outputs_10 = outputs[slice_right_x][slice_left_y]`,
`outputs_11 = outputs[slice_right_x][slice_right_y]`, stacked as
`na.stack([na.stack([outputs_00, outputs_10], axis_tap_x),
na.stack([outputs_01, outputs_11], axis_tap_x)], axis_tap_y)`.
The coordinate arrays are sliced by the matching one-axis slices and
stacked along the corresponding tap axis. -/
def SensorData.taps {α μ : Type} (s : SensorData α μ) : TapData α μ :=
  let num_x := s.num_x
  let num_y := s.num_y
  let num_x_new := num_x / s.sensor.num_tap_x
  let num_y_new := num_y / s.sensor.num_tap_y
  let slice_left_x : ℕ → ℕ := fun i => i
  let slice_left_y : ℕ → ℕ := fun j => j
  let slice_right_x : ℕ → ℕ := fun i => num_x - 1 - i
  let slice_right_y : ℕ → ℕ := fun j => num_y - 1 - j
  let x := stack2
    (fun i => s.inputs.pixel_x (slice_left_x i))
    (fun i => s.inputs.pixel_x (slice_right_x i))
  let y := stack2
    (fun j => s.inputs.pixel_y (slice_left_y j))
    (fun j => s.inputs.pixel_y (slice_right_y j))
  let outputs_00 := fun i j => s.outputs (slice_left_x i) (slice_left_y j)
  let outputs_01 := fun i j => s.outputs (slice_left_x i) (slice_right_y j)
  let outputs_10 := fun i j => s.outputs (slice_right_x i) (slice_left_y j)
  let outputs_11 := fun i j => s.outputs (slice_right_x i) (slice_right_y j)
  let outputs := stack2 (stack2 outputs_00 outputs_10) (stack2 outputs_01 outputs_11)
  { inputs := s.inputs.withPixel x y
    outputs := fun ti tj i j => outputs tj ti i j
    num_x := num_x_new
    num_y := num_y_new
    num_tap_x := 2
    num_tap_y := 2
    sensor := s.sensor }

/-- `SensorData.from_taps` (src/msfc_ccd/_images/_sensor_images.py).
The coordinate arrays are rebuilt as
`concatenate([x_left, x_right[reverse_x]], axis_x)` with
`x_left = x[{tap_x: 0}]`, `x_right = x[{tap_x: 1}]`, and the data as
`concatenate([concatenate([a_00, a_10], axis_x),
concatenate([a_01, a_11], axis_x)], axis_y)` after reversing `a_01` along
y, `a_10` along x and `a_11` along both.  Reversal of a per-tap array of
extent `k` sends index `i` to `k - 1 - i`; concatenation of two arrays of
extents `k` places the second at offset `k`.  The result keeps `self`
unchanged except for the pixel coordinates and `outputs`
(`dataclasses.replace`). -/
def SensorData.from_taps {α μ : Type} (s : SensorData α μ) (taps : TapData α μ) :
    SensorData α μ :=
  let k := taps.num_x
  let l := taps.num_y
  let x_left := fun i => taps.inputs.pixel_x 0 i
  let x_right := fun i => taps.inputs.pixel_x 1 i
  let y_left := fun j => taps.inputs.pixel_y 0 j
  let y_right := fun j => taps.inputs.pixel_y 1 j
  let x_right := fun i => x_right (k - 1 - i)
  let y_right := fun j => y_right (l - 1 - j)
  let x := fun i => if i < k then x_left i else x_right (i - k)
  let y := fun j => if j < l then y_left j else y_right (j - l)
  let a_00 := fun i j => taps.outputs 0 0 i j
  let a_01 := fun i j => taps.outputs 0 1 i j
  let a_10 := fun i j => taps.outputs 1 0 i j
  let a_11 := fun i j => taps.outputs 1 1 i j
  let a_01 := fun i j => a_01 i (l - 1 - j)
  let a_10 := fun i j => a_10 (k - 1 - i) j
  let a_11 := fun i j => a_11 (k - 1 - i) (l - 1 - j)
  let row_0 := fun i j => if i < k then a_00 i j else a_10 (i - k) j
  let row_1 := fun i j => if i < k then a_01 i j else a_11 (i - k) j
  let a := fun i j => if j < l then row_0 i j else row_1 i (j - l)
  { s with
      inputs := s.inputs.withPixel x y
      outputs := a
      num_x := k + k
      num_y := l + l }

/-!
A second, list-level embedding of the slices used by the tap split, for the
claims about the column/row windows themselves.  A slice of an axis of
extent `n` is represented by the list of selected original indices, in
selection order.
-/

/-- The Python slice `[:stop]` (`stop ≥ 0`) of an axis of extent `n`: the
first `stop` indices, clamped to the extent. -/
def slice_left_indices (n stop : ℕ) : List ℕ :=
  (List.range n).take stop

/-- The Python slice `[:stop:-1]` of an axis of extent `n`, where the
(possibly negative, `≥ -n`) integer `stop` is first normalized by adding
`n` if it is negative: the indices from `n - 1` down to `stop + 1`. -/
def slice_rev_indices (n : ℕ) (stop : ℤ) : List ℕ :=
  (List.range ((n : ℤ) - 1 - (if stop < 0 then stop + n else stop)).toNat).map
    fun i => n - 1 - i

/-- The "left" column window of the tap split
(src/msfc_ccd/_images/_sensor_images.py, `slice_left_x`; identically
src/msfc_ccd/_images/_tap_images.py): `slice(None, num_x_new)` with
`num_x_new = num_x // num_tap_x`. -/
def taps_window_left_x (num_x num_tap_x : ℕ) : List ℕ :=
  slice_left_indices num_x (num_x / num_tap_x)

/-- The "right" column window of the tap split
(src/msfc_ccd/_images/_sensor_images.py, `slice_right_x`; identically
src/msfc_ccd/_images/_tap_images.py): `slice(None, num_x_new - 1, -1)`
with `num_x_new = num_x // num_tap_x`, the stop computed in `ℤ` as in
Python int arithmetic. -/
def taps_window_right_x (num_x num_tap_x : ℕ) : List ℕ :=
  slice_rev_indices num_x ((num_x / num_tap_x : ℕ) - 1 : ℤ)

/-- The window described by the specification's words for the "right" side:
the last `k` columns of an axis of extent `n`, in reverse order. -/
def last_indices_reversed (n k : ℕ) : List ℕ :=
  ((List.range n).drop (n - k)).reverse

/-- Modelled from the spec: `TapData.active` is repository code missing
from src/ (the `TapData` in src/msfc_ccd/_images/_tap_images.py is a stale
revision without it; only its caller `SensorData.active` and its tests are
present).  Per spec §4.4, `active` is the "slice removing the first
`num_blank` and last `num_overscan` columns along `axis_x` only": the
slice `[num_blank : num_x - num_overscan]` keeps
`(num_x - num_overscan) - num_blank` columns, offsetting the x index by
`num_blank`, and leaves the vertical axis untouched; the per-pixel x
coordinates undergo the identical slice. -/
def TapData.active {α μ : Type} (t : TapData α μ) : TapData α μ :=
  let nb := t.sensor.num_blank
  let no := t.sensor.num_overscan
  { t with
      inputs := t.inputs.withPixel
        (fun ti i => t.inputs.pixel_x ti (nb + i))
        t.inputs.pixel_y
      outputs := fun ti tj i j => t.outputs ti tj (nb + i) j
      num_x := (t.num_x - no) - nb }

noncomputable section

/-- The channel-2/3/4 ADC temperature transform as the code actually
computes it, restated independently of the `Option` plumbing: the cubed
term is `(c·ln r)³`, i.e. `ln(r)³` carries the coefficient `c³`. -/
def adc_temperature_234_codeFormula (value : ℝ) : ℝ :=
  let r : ℝ := (9.814453125 * value) / (1 - value / 4096.0)
  let a : ℝ := 0.0011275
  let b : ℝ := 0.00023441
  let c : ℝ := 0.000000086482
  1 / (a + b * Real.log r + (c * Real.log r) ^ 3) - 273.15

/-- A concrete sensor for witnesses: `TeledyneCCD230()` with every field
defaulted. -/
def exSensor : TeledyneCCD230 := {}

/-- A concrete header for witnesses, with identity coordinate arrays and
trivial metadata. -/
def exHeader : ImageHeader (ℕ → ℕ) (ℕ → ℕ) Unit where
  pixel_x := fun i => i
  pixel_y := fun j => j
  time := ()
  timedelta := ()
  timedelta_requested := ()
  serial_number := ()
  run_mode := ()
  status := ()
  voltage_fpga_vccint := ()
  voltage_fpga_vccaux := ()
  voltage_fpga_vccbram := ()
  temperature_fpga := ()
  temperature_adc_1 := ()
  temperature_adc_2 := ()
  temperature_adc_3 := ()
  temperature_adc_4 := ()

/-- A concrete 4×2 sensor frame for the round-trip witness. -/
def exFrame4 : SensorData ℕ Unit where
  inputs := exHeader
  outputs := fun i j => 100 * i + j
  num_x := 4
  num_y := 2
  sensor := exSensor

/-- A concrete 22×12 sensor frame for the shape-scenario witness. -/
def exFrame22 : SensorData ℕ Unit where
  inputs := exHeader
  outputs := fun i j => 100 * i + j
  num_x := 22
  num_y := 12
  sensor := exSensor

/-- A concrete tap frame (per-tap extent 60×8) for the active-slice
witness. -/
def exTap : TapData ℕ Unit where
  inputs := exHeader.withPixel (fun _ i => i) (fun _ j => j)
  outputs := fun ti tj i j => 1000 * (2 * ti + tj) + 10 * i + j
  num_x := 60
  num_y := 8
  num_tap_x := 2
  num_tap_y := 2
  sensor := exSensor

end

/-!
Theorems settling the claims.
-/

/-- C10: for every input count, each of the five private calibration
classmethods on `SensorData` returns the same value as the corresponding
public classmethod on `AbstractCamera`. -/
theorem C10_private_calibrations_match_camera :
    ∀ value : ℝ,
      SensorDataCal._calibrate_timedelta value
        = AbstractCamera.calibrate_timedelta_exposure value
      ∧ SensorDataCal._calibrate_voltage_fpga value
        = AbstractCamera.calibrate_voltage_fpga value
      ∧ SensorDataCal._calibrate_temperature_fpga value
        = AbstractCamera.calibrate_temperature_fpga value
      ∧ SensorDataCal._calibrate_temperature_adc_1 value
        = AbstractCamera.calibrate_temperature_adc_1 value
      ∧ SensorDataCal._calibrate_temperature_adc_234 value
        = AbstractCamera.calibrate_temperature_adc_234 value :=
  fun _ => ⟨rfl, rfl, rfl, rfl, rfl⟩

/-- C8: the tap frame produced by `taps` carries the same per-frame
metadata as its parent sensor frame (all fourteen metadata fields are
copied unchanged by `dataclasses.replace`, which replaces only `pixel`)
and references the same sensor object. -/
theorem C8_taps_preserves_metadata_and_sensor :
    ∀ {α μ : Type} (s : SensorData α μ),
      s.taps.inputs.time = s.inputs.time
      ∧ s.taps.inputs.timedelta = s.inputs.timedelta
      ∧ s.taps.inputs.timedelta_requested = s.inputs.timedelta_requested
      ∧ s.taps.inputs.serial_number = s.inputs.serial_number
      ∧ s.taps.inputs.run_mode = s.inputs.run_mode
      ∧ s.taps.inputs.status = s.inputs.status
      ∧ s.taps.inputs.voltage_fpga_vccint = s.inputs.voltage_fpga_vccint
      ∧ s.taps.inputs.voltage_fpga_vccaux = s.inputs.voltage_fpga_vccaux
      ∧ s.taps.inputs.voltage_fpga_vccbram = s.inputs.voltage_fpga_vccbram
      ∧ s.taps.inputs.temperature_fpga = s.inputs.temperature_fpga
      ∧ s.taps.inputs.temperature_adc_1 = s.inputs.temperature_adc_1
      ∧ s.taps.inputs.temperature_adc_2 = s.inputs.temperature_adc_2
      ∧ s.taps.inputs.temperature_adc_3 = s.inputs.temperature_adc_3
      ∧ s.taps.inputs.temperature_adc_4 = s.inputs.temperature_adc_4
      ∧ s.taps.sensor = s.sensor :=
  fun _ =>
    ⟨rfl, rfl, rfl, rfl, rfl, rfl, rfl, rfl, rfl, rfl, rfl, rfl, rfl, rfl, rfl⟩

/-- C7: the dark-current model returns `Q0 × f(T)` with
`f(T) = 122·T³·exp(−6400K/T)/K³` and `Q0 = (0.2 e⁻/s) / f(248 K)`, and at
248 K it returns exactly 0.2 electrons per second. -/
theorem C7_dark_current_normalization :
    (∀ (s : TeledyneCCD230) (T : ℝ),
      s.dark_current (some T)
        = 0.2 / darkCurrentShapeSpec 248 * darkCurrentShapeSpec T)
    ∧ ∀ s : TeledyneCCD230, s.dark_current (some 248) = 0.2 := by
  constructor
  · intro s T
    simp only [TeledyneCCD230.dark_current, TeledyneCCD230._frac_Qd_Qdo,
      darkCurrentShapeSpec, Option.getD_some]
    ring
  · intro s
    simp only [TeledyneCCD230.dark_current, TeledyneCCD230._frac_Qd_Qdo,
      Option.getD_some]
    have h : (122 : ℝ) * 248 * (248 * 248) * Real.exp (-6400 / 248) ≠ 0 := by
      positivity
    exact div_mul_cancel₀ _ h

/-- C5: at count 4096 the denominator `1 − count/4096` is zero, so the
Python float division raises `ZeroDivisionError`: both ADC temperature
transforms signal the domain error (modelled as `none`) instead of
returning an infinite value. -/
theorem C5_adc_count_4096_domain_error :
    AbstractCamera.calibrate_temperature_adc_1 4096 = none
    ∧ AbstractCamera.calibrate_temperature_adc_234 4096 = none := by
  have h : (1 : ℝ) - 4096 / 4096.0 = 0 := by norm_num
  constructor
  · simp [AbstractCamera.calibrate_temperature_adc_1, fdiv, h]
  · simp [AbstractCamera.calibrate_temperature_adc_234, fdiv, h]

/-- C9: `num_pixel_active` returns `num_pixel` with the vertical component
divided by 2 in transfer mode, and `None` in full-frame mode (the method
body only returns inside the `if readout_mode == "transfer"` branch). -/
theorem C9_num_pixel_active :
    ∀ s : TeledyneCCD230,
      (s.readout_mode = ReadoutMode.transfer →
        s.num_pixel_active = some (s.num_pixel.1, s.num_pixel.2 / 2))
      ∧ (s.readout_mode = ReadoutMode.fullFrame → s.num_pixel_active = none) := by
  intro s
  constructor
  · intro h
    simp [TeledyneCCD230.num_pixel_active, h]
  · intro h
    simp [TeledyneCCD230.num_pixel_active, h]

/-- Witness for C9 at two concrete sensors: the default (transfer-mode)
sensor yields `(2048, 1032)`; the full-frame sensor yields `none`. -/
theorem C9_num_pixel_active_witness :
    ({} : TeledyneCCD230).readout_mode = ReadoutMode.transfer
    ∧ ({} : TeledyneCCD230).num_pixel_active = some (2048, 1032)
    ∧ ({ readout_mode := ReadoutMode.fullFrame } : TeledyneCCD230).readout_mode
        = ReadoutMode.fullFrame
    ∧ ({ readout_mode := ReadoutMode.fullFrame } : TeledyneCCD230).num_pixel_active
        = none := by
  refine ⟨rfl, ?_, rfl, (C9_num_pixel_active _).2 rfl⟩
  have h := (C9_num_pixel_active ({} : TeledyneCCD230)).1 rfl
  rw [h]
  norm_num [show ({} : TeledyneCCD230).num_pixel = (2048, 2064) from rfl]

/-- C3 counterexample: on an axis of extent 3 with 2 taps
(`num_x_new = 3 // 2 = 1`), the "right" window selected by
`slice(None, num_x_new - 1, -1)` is `[2, 1]`, not the last `num_x_new`
columns in reverse order (`[2]`), and its length is 2, not
`num_x_new = 1`: for non-divisible extents the remainder column is *not*
dropped from the right window. -/
theorem C3_counterexample_extent_3 :
    taps_window_right_x 3 2 ≠ last_indices_reversed 3 (3 / 2)
    ∧ (taps_window_right_x 3 2).length ≠ 3 / 2 := by
  decide

/-- For `1 ≤ k ≤ n`, the reversed slice `[:k-1:-1]` selects the last
`n - k` indices of an axis of extent `n` in reverse order. -/
theorem slice_rev_eq_last_rev (n k : ℕ) (hk : 1 ≤ k) (hkn : k ≤ n) :
    slice_rev_indices n ((k : ℤ) - 1) = last_indices_reversed n (n - k) := by
  unfold slice_rev_indices last_indices_reversed
  rw [if_neg (by omega)]
  have hcount : ((n : ℤ) - 1 - ((k : ℤ) - 1)).toNat = n - k := by omega
  have hnn : n - (n - k) = k := by omega
  rw [hcount, hnn]
  apply List.ext_getElem
  · simp only [List.length_map, List.length_range, List.length_reverse,
      List.length_drop]
  · intro i h₁ h₂
    simp only [List.getElem_map, List.getElem_range, List.getElem_reverse,
      List.length_drop, List.length_range, List.getElem_drop]
    simp only [List.length_map, List.length_range] at h₁
    omega

/-- C3 amended: the "left" column window is always the first
`num_x_new = num_x // 2` columns in original order; the "right" column
window (for extents of at least 2) is the last `num_x − num_x_new` columns
in reverse order — which coincides with "the last `num_x_new` columns in
reverse order", with every window of exactly `num_x_new` columns, exactly
when the extent is evenly divisible by the tap count.  (Symmetrically for
rows; the slices are axis-agnostic.) -/
theorem C3_tap_windows_amended :
    ∀ n : ℕ,
      taps_window_left_x n 2 = List.range (n / 2)
      ∧ (2 ≤ n → taps_window_right_x n 2 = last_indices_reversed n (n - n / 2))
      ∧ (2 ∣ n →
          taps_window_right_x n 2 = last_indices_reversed n (n / 2)
          ∧ (taps_window_right_x n 2).length = n / 2
          ∧ (taps_window_left_x n 2).length = n / 2) := by
  intro n
  refine ⟨?_, ?_, ?_⟩
  · rw [taps_window_left_x, slice_left_indices, List.take_range]
    congr 1
    omega
  · intro h2
    exact slice_rev_eq_last_rev n (n / 2) (by omega) (by omega)
  · intro hdvd
    obtain ⟨m, hm⟩ := hdvd
    by_cases hm0 : m = 0
    · subst hm0
      subst hm
      refine ⟨rfl, rfl, rfl⟩
    · have h2 : 2 ≤ n := by omega
      have e := slice_rev_eq_last_rev n (n / 2) (by omega) (by omega)
      have hk : n - n / 2 = n / 2 := by omega
      rw [hk] at e
      refine ⟨e, ?_, ?_⟩
      · rw [show taps_window_right_x n 2 = _ from e]
        simp [last_indices_reversed]
        omega
      · simp [taps_window_left_x, slice_left_indices]
        omega

/-- Witness for C3 at the divisible extent 6: the windows and their
lengths computed concretely. -/
theorem C3_tap_windows_amended_witness :
    taps_window_left_x 6 2 = List.range (6 / 2)
    ∧ (2 ≤ 6
        ∧ taps_window_right_x 6 2 = last_indices_reversed 6 (6 - 6 / 2))
    ∧ (2 ∣ 6
        ∧ taps_window_right_x 6 2 = last_indices_reversed 6 (6 / 2)
        ∧ (taps_window_right_x 6 2).length = 6 / 2
        ∧ (taps_window_left_x 6 2).length = 6 / 2) := by
  obtain ⟨h1, h2, h3⟩ := C3_tap_windows_amended 6
  exact ⟨h1, ⟨by decide, h2 (by decide)⟩, ⟨by decide, h3 (by decide)⟩⟩

/-- C6: `active` removes the first `num_blank` and last `num_overscan`
columns along the x axis only: when the two counts fit in the tap extent,
the x extent shrinks by exactly `num_blank + num_overscan`, the y extent
is unchanged, the retained pixel values and x coordinates are the original
ones offset by `num_blank`, and the y coordinates and tap-axis extents are
untouched. -/
theorem C6_tap_active_slice :
    ∀ {α μ : Type} (t : TapData α μ),
      t.sensor.num_blank + t.sensor.num_overscan ≤ t.num_x →
      ((t.active).num_x : ℤ)
          = (t.num_x : ℤ) - (t.sensor.num_blank + t.sensor.num_overscan)
      ∧ (t.active).num_y = t.num_y
      ∧ (∀ ti tj i j,
          (t.active).outputs ti tj i j
            = t.outputs ti tj (t.sensor.num_blank + i) j)
      ∧ (∀ ti i,
          (t.active).inputs.pixel_x ti i
            = t.inputs.pixel_x ti (t.sensor.num_blank + i))
      ∧ (∀ tj j, (t.active).inputs.pixel_y tj j = t.inputs.pixel_y tj j)
      ∧ (t.active).num_tap_x = t.num_tap_x
      ∧ (t.active).num_tap_y = t.num_tap_y := by
  intro α μ t h
  refine ⟨?_, rfl, fun ti tj i j => rfl, fun ti i => rfl, fun tj j => rfl,
    rfl, rfl⟩
  show (((t.num_x - t.sensor.num_overscan) - t.sensor.num_blank : ℕ) : ℤ) = _
  omega

/-- Witness for C6 at a concrete 60×8 tap frame with the default sensor
(`num_blank = 50`, `num_overscan = 2`). -/
theorem C6_tap_active_slice_witness :
    exTap.sensor.num_blank + exTap.sensor.num_overscan ≤ exTap.num_x
    ∧ (((exTap.active).num_x : ℤ)
          = (exTap.num_x : ℤ)
            - (exTap.sensor.num_blank + exTap.sensor.num_overscan)
      ∧ (exTap.active).num_y = exTap.num_y
      ∧ (∀ ti tj i j,
          (exTap.active).outputs ti tj i j
            = exTap.outputs ti tj (exTap.sensor.num_blank + i) j)
      ∧ (∀ ti i,
          (exTap.active).inputs.pixel_x ti i
            = exTap.inputs.pixel_x ti (exTap.sensor.num_blank + i))
      ∧ (∀ tj j,
          (exTap.active).inputs.pixel_y tj j = exTap.inputs.pixel_y tj j)
      ∧ (exTap.active).num_tap_x = exTap.num_tap_x
      ∧ (exTap.active).num_tap_y = exTap.num_tap_y) :=
  ⟨by decide, C6_tap_active_slice exTap (by decide)⟩

/-- C2: splitting a 22×12 frame under the 2×2 tap grid yields tap axes of
extent 2 and per-tap spatial extents 11×6; recombining restores the
22×12 extents. -/
theorem C2_tap_shapes_22x12 :
    ∀ {α μ : Type} (s : SensorData α μ), s.num_x = 22 → s.num_y = 12 →
      s.taps.num_tap_x = 2
      ∧ s.taps.num_tap_y = 2
      ∧ s.taps.num_x = 11
      ∧ s.taps.num_y = 6
      ∧ (s.from_taps s.taps).num_x = 22
      ∧ (s.from_taps s.taps).num_y = 12 := by
  intro α μ s hx hy
  refine ⟨rfl, rfl, ?_, ?_, ?_, ?_⟩
  · show s.num_x / s.sensor.num_tap_x = 11
    rw [hx]
    norm_num [TeledyneCCD230.num_tap_x]
  · show s.num_y / s.sensor.num_tap_y = 6
    rw [hy]
    norm_num [TeledyneCCD230.num_tap_y]
  · show s.num_x / s.sensor.num_tap_x + s.num_x / s.sensor.num_tap_x = 22
    rw [hx]
    norm_num [TeledyneCCD230.num_tap_x]
  · show s.num_y / s.sensor.num_tap_y + s.num_y / s.sensor.num_tap_y = 12
    rw [hy]
    norm_num [TeledyneCCD230.num_tap_y]

/-- Witness for C2 at a concrete 22×12 frame. -/
theorem C2_tap_shapes_22x12_witness :
    exFrame22.num_x = 22 ∧ exFrame22.num_y = 12
    ∧ (exFrame22.taps.num_tap_x = 2
      ∧ exFrame22.taps.num_tap_y = 2
      ∧ exFrame22.taps.num_x = 11
      ∧ exFrame22.taps.num_y = 6
      ∧ (exFrame22.from_taps exFrame22.taps).num_x = 22
      ∧ (exFrame22.from_taps exFrame22.taps).num_y = 12) :=
  ⟨rfl, rfl, C2_tap_shapes_22x12 exFrame22 rfl rfl⟩

/-- Congruence helper: equal indices select equal pixels. -/
theorem pixel_fun_congr {α : Type} (f : ℕ → ℕ → α) {a b c d : ℕ}
    (h1 : a = c) (h2 : b = d) : f a b = f c d := by
  rw [h1, h2]

/-- Evaluation of the split data tensor: tap index 0 selects the left
(unreversed) window and tap index 1 the right (reversed) window on each
axis. -/
theorem taps_outputs_eval {α μ : Type} (s : SensorData α μ) (ti tj i j : ℕ) :
    s.taps.outputs ti tj i j =
      s.outputs (if ti = 0 then i else s.num_x - 1 - i)
        (if tj = 0 then j else s.num_y - 1 - j) := by
  by_cases h1 : ti = 0 <;> by_cases h2 : tj = 0 <;>
    simp [SensorData.taps, stack2, h1, h2]

/-- Evaluation of the split x-coordinate array. -/
theorem taps_pixel_x_eval {α μ : Type} (s : SensorData α μ) (ti i : ℕ) :
    s.taps.inputs.pixel_x ti i =
      s.inputs.pixel_x (if ti = 0 then i else s.num_x - 1 - i) := by
  by_cases h : ti = 0 <;>
    simp [SensorData.taps, stack2, ImageHeader.withPixel, h]

/-- Evaluation of the split y-coordinate array. -/
theorem taps_pixel_y_eval {α μ : Type} (s : SensorData α μ) (tj j : ℕ) :
    s.taps.inputs.pixel_y tj j =
      s.inputs.pixel_y (if tj = 0 then j else s.num_y - 1 - j) := by
  by_cases h : tj = 0 <;>
    simp [SensorData.taps, stack2, ImageHeader.withPixel, h]

/-- Evaluation of the recombined data array: the four quadrants are placed
back after undoing the per-axis reversals. -/
theorem from_taps_outputs_eval {α μ : Type} (s : SensorData α μ)
    (t : TapData α μ) (i j : ℕ) :
    (s.from_taps t).outputs i j =
      if j < t.num_y then
        if i < t.num_x then t.outputs 0 0 i j
        else t.outputs 1 0 (t.num_x - 1 - (i - t.num_x)) j
      else
        if i < t.num_x then t.outputs 0 1 i (t.num_y - 1 - (j - t.num_y))
        else t.outputs 1 1 (t.num_x - 1 - (i - t.num_x))
          (t.num_y - 1 - (j - t.num_y)) := rfl

/-- Evaluation of the recombined x-coordinate array. -/
theorem from_taps_pixel_x_eval {α μ : Type} (s : SensorData α μ)
    (t : TapData α μ) (i : ℕ) :
    (s.from_taps t).inputs.pixel_x i =
      if i < t.num_x then t.inputs.pixel_x 0 i
      else t.inputs.pixel_x 1 (t.num_x - 1 - (i - t.num_x)) := rfl

/-- Evaluation of the recombined y-coordinate array. -/
theorem from_taps_pixel_y_eval {α μ : Type} (s : SensorData α μ)
    (t : TapData α μ) (j : ℕ) :
    (s.from_taps t).inputs.pixel_y j =
      if j < t.num_y then t.inputs.pixel_y 0 j
      else t.inputs.pixel_y 1 (t.num_y - 1 - (j - t.num_y)) := rfl

/-- C1: when both spatial extents are evenly divisible by the 2×2 tap
grid, recombining the tap decomposition reproduces the original frame
element-for-element — extents, every in-range pixel value, and both
per-pixel coordinate arrays. -/
theorem C1_taps_round_trip :
    ∀ {α μ : Type} (s : SensorData α μ),
      2 ∣ s.num_x → 2 ∣ s.num_y →
      (s.from_taps s.taps).num_x = s.num_x
      ∧ (s.from_taps s.taps).num_y = s.num_y
      ∧ (∀ i j, i < s.num_x → j < s.num_y →
          (s.from_taps s.taps).outputs i j = s.outputs i j)
      ∧ (∀ i, i < s.num_x →
          (s.from_taps s.taps).inputs.pixel_x i = s.inputs.pixel_x i)
      ∧ (∀ j, j < s.num_y →
          (s.from_taps s.taps).inputs.pixel_y j = s.inputs.pixel_y j) := by
  intro α μ s hx hy
  obtain ⟨m, hm⟩ := hx
  obtain ⟨n, hn⟩ := hy
  have hk : s.taps.num_x = m := by
    show s.num_x / s.sensor.num_tap_x = m
    show s.num_x / 2 = m
    omega
  have hl : s.taps.num_y = n := by
    show s.num_y / s.sensor.num_tap_y = n
    show s.num_y / 2 = n
    omega
  refine ⟨?_, ?_, ?_, ?_, ?_⟩
  · show s.taps.num_x + s.taps.num_x = s.num_x
    rw [hk]
    omega
  · show s.taps.num_y + s.taps.num_y = s.num_y
    rw [hl]
    omega
  · intro i j hi hj
    rw [from_taps_outputs_eval, hk, hl]
    simp only [taps_outputs_eval]
    norm_num
    split_ifs <;> exact pixel_fun_congr s.outputs (by omega) (by omega)
  · intro i hi
    rw [from_taps_pixel_x_eval, hk]
    simp only [taps_pixel_x_eval]
    norm_num
    intro h
    exact congrArg s.inputs.pixel_x (by omega)
  · intro j hj
    rw [from_taps_pixel_y_eval, hl]
    simp only [taps_pixel_y_eval]
    norm_num
    intro h
    exact congrArg s.inputs.pixel_y (by omega)

/-- Witness for C1 at a concrete 4×2 frame. -/
theorem C1_taps_round_trip_witness :
    2 ∣ exFrame4.num_x ∧ 2 ∣ exFrame4.num_y
    ∧ ((exFrame4.from_taps exFrame4.taps).num_x = exFrame4.num_x
      ∧ (exFrame4.from_taps exFrame4.taps).num_y = exFrame4.num_y
      ∧ (∀ i j, i < exFrame4.num_x → j < exFrame4.num_y →
          (exFrame4.from_taps exFrame4.taps).outputs i j
            = exFrame4.outputs i j)
      ∧ (∀ i, i < exFrame4.num_x →
          (exFrame4.from_taps exFrame4.taps).inputs.pixel_x i
            = exFrame4.inputs.pixel_x i)
      ∧ (∀ j, j < exFrame4.num_y →
          (exFrame4.from_taps exFrame4.taps).inputs.pixel_y j
            = exFrame4.inputs.pixel_y j)) :=
  ⟨⟨2, rfl⟩, ⟨1, rfl⟩, C1_taps_round_trip exFrame4 ⟨2, rfl⟩ ⟨1, rfl⟩⟩

/-- Evaluation of the channel-2/3/4 ADC transform when both float
divisions are defined. -/
theorem adc234_eval (v : ℝ) (h1 : 1 - v / 4096.0 ≠ 0)
    (h2 : 0.0011275
        + 0.00023441 * Real.log (9.814453125 * v / (1 - v / 4096.0))
        + (0.000000086482 * Real.log (9.814453125 * v / (1 - v / 4096.0))) ^ 3
        ≠ 0) :
    AbstractCamera.calibrate_temperature_adc_234 v
      = some (1 / (0.0011275
          + 0.00023441 * Real.log (9.814453125 * v / (1 - v / 4096.0))
          + (0.000000086482 * Real.log (9.814453125 * v / (1 - v / 4096.0))) ^ 3)
          - 273.15) := by
  simp only [AbstractCamera.calibrate_temperature_adc_234, fdiv, if_neg h1,
    Option.some_bind, if_neg h2, Option.map_some']

/-- C4 counterexample: at count 1 the code's value differs from the
formula asserted by the claim (cube on `ln(r)` with `c` linear), because
the code cubes the product `c·ln(r)`. -/
theorem C4_counterexample_count_1 :
    AbstractCamera.calibrate_temperature_adc_234 1
      ≠ some (adc_temperature_234_specFormula 1) := by
  intro heq
  obtain ⟨L, hLdef, hL⟩ :
      ∃ L : ℝ, L = Real.log (9.814453125 * 1 / (1 - 1 / 4096.0)) ∧ 0 < L :=
    ⟨_, rfl, Real.log_pos (by norm_num)⟩
  have hne : 0.0011275
      + 0.00023441 * Real.log (9.814453125 * 1 / (1 - 1 / 4096.0))
      + (0.000000086482 * Real.log (9.814453125 * 1 / (1 - 1 / 4096.0))) ^ 3
      ≠ 0 := by
    rw [← hLdef]
    positivity
  rw [adc234_eval 1 (by norm_num) hne] at heq
  have h2 := Option.some.inj heq
  simp only [adc_temperature_234_specFormula] at h2
  rw [← hLdef] at h2
  have hdcode : (0:ℝ) < 0.0011275 + 0.00023441 * L
      + (0.000000086482 * L) ^ 3 := by positivity
  have hdspec : (0:ℝ) < 0.0011275 + 0.00023441 * L
      + 0.000000086482 * L ^ 3 := by positivity
  have hlt : 0.0011275 + 0.00023441 * L + (0.000000086482 * L) ^ 3
      < 0.0011275 + 0.00023441 * L + 0.000000086482 * L ^ 3 := by
    nlinarith [pow_pos hL 3, sq_nonneg L]
  have hinv : 1 / (0.0011275 + 0.00023441 * L + 0.000000086482 * L ^ 3)
      < 1 / (0.0011275 + 0.00023441 * L + (0.000000086482 * L) ^ 3) :=
    one_div_lt_one_div_of_lt hdcode hlt
  linarith

/-- C4 amended: for counts in [0, 4096) (and whenever the resulting
Kelvin denominator is nonzero, so that the final float division is
defined), the channel-2/3/4 transform returns the Celsius conversion of
`T_K = 1 / (a + b·ln(r) + (c·ln(r))³)` — the cube applying to the
*product* `c·ln(r)`. -/
theorem C4_adc234_corrected :
    ∀ value : ℝ, 0 ≤ value → value < 4096 →
      0.0011275
        + 0.00023441 * Real.log (9.814453125 * value / (1 - value / 4096.0))
        + (0.000000086482
            * Real.log (9.814453125 * value / (1 - value / 4096.0))) ^ 3
        ≠ 0 →
      AbstractCamera.calibrate_temperature_adc_234 value
        = some (adc_temperature_234_codeFormula value) := by
  intro v h0 hv hden
  have h4 : (4096.0 : ℝ) = 4096 := by norm_num
  have h1 : (1:ℝ) - v / 4096.0 ≠ 0 := by
    have hlt1 : v / 4096.0 < 1 := by
      rw [div_lt_one (by norm_num), h4]
      exact hv
    linarith
  rw [adc234_eval v h1 hden]
  simp only [adc_temperature_234_codeFormula]

/-- Witness for C4's amended claim at count 1. -/
theorem C4_adc234_corrected_witness :
    ((0:ℝ) ≤ 1 ∧ (1:ℝ) < 4096
      ∧ 0.0011275
          + 0.00023441 * Real.log (9.814453125 * 1 / (1 - 1 / 4096.0))
          + (0.000000086482
              * Real.log (9.814453125 * 1 / (1 - 1 / 4096.0))) ^ 3
          ≠ 0)
    ∧ AbstractCamera.calibrate_temperature_adc_234 1
        = some (adc_temperature_234_codeFormula 1) := by
  obtain ⟨L, hLdef, hL⟩ :
      ∃ L : ℝ, L = Real.log (9.814453125 * 1 / (1 - 1 / 4096.0)) ∧ 0 < L :=
    ⟨_, rfl, Real.log_pos (by norm_num)⟩
  have hne : 0.0011275
      + 0.00023441 * Real.log (9.814453125 * 1 / (1 - 1 / 4096.0))
      + (0.000000086482 * Real.log (9.814453125 * 1 / (1 - 1 / 4096.0))) ^ 3
      ≠ 0 := by
    rw [← hLdef]
    positivity
  exact ⟨⟨by norm_num, by norm_num, hne⟩,
    C4_adc234_corrected 1 (by norm_num) (by norm_num) hne⟩
